import Mathlib

/-!
Formal model of the OMC club-registration bot.

The definitions below are a shallow embedding of the repository's Python
sources (`database.py`, `utils.py`, `modals.py`, `views.py`, `main.py`):
pure validation helpers become Lean functions on `String`/`List Char`,
the MySQL table becomes a `List Registration` with the `discord_id UNIQUE`
constraint modelled in the insert operation, and the stateful flow handlers
become explicit functions from a database state to a new state and an
outcome.  Theorems about these definitions settle the specification claims.
-/

namespace OMC

/-! ## Python string primitives used by the sources -/

/-- Model of Python `re.sub(r'[^\d]', '', s)`: drop every non-digit character. -/
def stripNonDigits (s : String) : String :=
  String.mk (s.data.filter Char.isDigit)

/-- Model of Python `str.strip()`: remove leading and trailing whitespace. -/
def pyStrip (s : String) : String :=
  String.mk (((s.data.dropWhile Char.isWhitespace).reverse.dropWhile Char.isWhitespace).reverse)

/-- Model of Python `str.isdigit()`: nonempty and every character a digit. -/
def pyIsDigit (s : String) : Bool :=
  !s.data.isEmpty && s.data.all Char.isDigit

/-- Split a character list at every occurrence of `c` (model of `str.split`). -/
def splitOnChar (c : Char) : List Char → List (List Char)
  | [] => [[]]
  | x :: xs =>
    match splitOnChar c xs with
    | [] => [[x]]
    | h :: t => if x = c then [] :: h :: t else (x :: h) :: t

/-- Characters allowed by the email regex before the `@`: `[a-zA-Z0-9._%+-]`. -/
def isLocalChar (c : Char) : Bool :=
  c.isAlphanum || c == '.' || c == '_' || c == '%' || c == '+' || c == '-'

/-- Characters allowed by the email regex in the domain: `[a-zA-Z0-9.-]`. -/
def isDomainChar (c : Char) : Bool :=
  c.isAlphanum || c == '.' || c == '-'

/-- Model of `utils.validate_email`: full match of the trimmed input against
`^[a-zA-Z0-9._%+-]+@[a-zA-Z0-9.-]+\.[a-zA-Z]\x7b2,\x7d$`.  The charsets exclude
`@`, so a match forces exactly one `@`; the final group is all-alphabetic, so
it is exactly the suffix after the last dot of the domain. -/
def validate_email (email : String) : Bool :=
  let s := (pyStrip email).data
  match splitOnChar '@' s with
  | [loc, dom] =>
    !loc.isEmpty && loc.all isLocalChar &&
    (match (splitOnChar '.' dom).reverse with
     | tld :: preRev =>
       !preRev.isEmpty && decide (2 ≤ tld.length) && tld.all Char.isAlpha &&
       (let pre := List.intercalate ['.'] preRev.reverse
        !pre.isEmpty && pre.all isDomainChar)
     | [] => false)
  | _ => false

/-! ## Validation engine (`utils.py`, `modals.py`) -/

/-- Model of Python `field.replace('_', ' ').title()` for the two name fields. -/
def fieldTitle : String → String
  | "first_name" => "First Name"
  | "last_name" => "Last Name"
  | s => s

/-- Model of `utils.validate_field_value`: returns `some errorMessage` when the
value is invalid for the field, `none` when it passes. -/
def validate_field_value (field value : String) : Option String :=
  let v := pyStrip value
  if field = "first_name" ∨ field = "last_name" then
    if v = "" then some (fieldTitle field ++ " cannot be empty")
    else if 100 < v.length then
      some (fieldTitle field ++ " cannot be longer than 100 characters")
    else none
  else if field = "email" then
    if v = "" then some "Email cannot be empty"
    else if !validate_email v then some "Invalid email format"
    else if 100 < v.length then some "Email cannot be longer than 100 characters"
    else none
  else if field = "phone" then
    let pc := stripNonDigits v
    if pc = "" then some "Phone number cannot be empty"
    else if pc.length ≠ 10 then some "Phone number must be exactly 10 digits"
    else none
  else if field = "team" then
    if v ∉ ["IT", "Design", "Marketing", "B2B", "OPS", "HR"] then
      some "Invalid team. Must be one of: IT, Design, Marketing, B2B, OPS, HR"
    else none
  else if field = "student_id" then
    if v = "" then some "Student ID cannot be empty"
    else if !pyIsDigit v then some "Student ID must contain only numbers"
    else if v.length < 5 then some "Student ID must be at least 5 digits long"
    else none
  else if field = "year_major" then
    if v = "" then some "Year + Major cannot be empty"
    else if 150 < v.length then some "Year + Major cannot be longer than 150 characters"
    else none
  else if field = "photo" then
    if v = "" then some "Photo URL cannot be empty"
    else if 500 < v.length then some "Photo URL cannot be longer than 500 characters"
    else none
  else none

example : stripNonDigits "01-23 45 67 89" = "0123456789" := by decide
example : validate_email "a.b@mail.com" = true := by decide
example : validate_email "notanemail" = false := by decide
example : validate_field_value "team" "Bogus" =
    some "Invalid team. Must be one of: IT, Design, Marketing, B2B, OPS, HR" := by decide
example : pyStrip "  ab c  " = "ab c" := by decide

/-! ## Data model (`database.py` schema) -/

/-- Calendar timestamp, the model of a Python `datetime` / MySQL `DATETIME` value. -/
structure DateTime where
  year : Nat
  month : Nat
  day : Nat
  hour : Nat
  minute : Nat
  second : Nat
deriving Repr, DecidableEq

/-- Left-pad to two digits, as Python `datetime` rendering does. -/
def pad2 (n : Nat) : String :=
  if n < 10 then "0" ++ toString n else toString n

/-- Left-pad to four digits, as Python `datetime` rendering does for years. -/
def pad4 (n : Nat) : String :=
  if n < 10 then "000" ++ toString n
  else if n < 100 then "00" ++ toString n
  else if n < 1000 then "0" ++ toString n
  else toString n

/-- Model of Python `datetime.isoformat()` (zero microseconds):
`YYYY-MM-DDTHH:MM:SS`. -/
def DateTime.isoformat (t : DateTime) : String :=
  pad4 t.year ++ "-" ++ pad2 t.month ++ "-" ++ pad2 t.day ++ "T" ++
  pad2 t.hour ++ ":" ++ pad2 t.minute ++ ":" ++ pad2 t.second

/-- Mixed-radix packing of the timestamp fields.  For in-range field values it
is monotone in the chronological order, so it models the order MySQL uses for
`ORDER BY timestamp`. -/
def DateTime.key (t : DateTime) : Nat :=
  ((((t.year * 13 + t.month) * 32 + t.day) * 25 + t.hour) * 61 + t.minute) * 61 + t.second

/-- One row of the `registrations` table (`database.py`, `create_tables`). -/
structure Registration where
  discord_id : String
  last_name : String
  first_name : String
  photo : String
  year_major : String
  student_id : String
  phone : String
  email : String
  team : String
  timestamp : DateTime
deriving Repr, DecidableEq

/-- Result shape of `DatabaseManager.get_registration_stats`; the Python dict
`\x7b'total': ..., 'teams': ..., 'latest': ...\x7d`. -/
structure Stats where
  total : Nat
  teams : List (String × Nat)
  latest : Option Registration
deriving Repr, DecidableEq

/-! ## Persistence operations on the table state

The live table is modelled as a `List Registration`; `discord_id` carries a
`UNIQUE` constraint in the schema, so an `INSERT` for an id that is already
present raises an integrity error, which `save_registration` catches and turns
into a `False` result with the table unchanged (rollback). -/

/-- Model of `DatabaseManager.is_user_registered`'s successful query:
`SELECT 1 FROM registrations WHERE discord_id = %s` has a row. -/
def isRegisteredDb (db : List Registration) (id : String) : Bool :=
  db.any (fun r => r.discord_id == id)

/-- Model of the `INSERT` in `DatabaseManager.save_registration` under the
`discord_id UNIQUE` constraint: a duplicate insert is rejected (the raised
integrity error is caught, the transaction rolled back, and `False` returned);
otherwise the row is appended and `True` returned. -/
def saveRegistrationDb (db : List Registration) (reg : Registration) :
    List Registration × Bool :=
  if isRegisteredDb db reg.discord_id then (db, false) else (db ++ [reg], true)

/-- The recognized editable field names (`field_mapping` in
`DatabaseManager.modify_user_registration`). -/
def field_mapping : List String :=
  ["first_name", "last_name", "email", "phone", "team", "student_id", "year_major", "photo"]

/-- Set one editable column of a row by field name (the `UPDATE ... SET` of
`modify_user_registration`). -/
def Registration.setField (r : Registration) (f v : String) : Registration :=
  if f = "first_name" then { r with first_name := v }
  else if f = "last_name" then { r with last_name := v }
  else if f = "email" then { r with email := v }
  else if f = "phone" then { r with phone := v }
  else if f = "team" then { r with team := v }
  else if f = "student_id" then { r with student_id := v }
  else if f = "year_major" then { r with year_major := v }
  else if f = "photo" then { r with photo := v }
  else r

/-- Model of `DatabaseManager.modify_user_registration` (successful attempt):
unrecognized field names fail immediately before any statement runs; otherwise
the single-column `UPDATE` runs and `rowcount` is the number of rows the
update actually changed — pymysql connects without `CLIENT_FOUND_ROWS`, so
MySQL reports affected (changed) rows, and a row matched by
`WHERE discord_id = %s` whose stored value already equals the new value is
not counted.  The result message depends on whether that count is positive. -/
def modify_user_registration (db : List Registration) (id f v : String) :
    List Registration × Bool × String :=
  if f ∈ field_mapping then
    if 0 < db.countP (fun r => r.discord_id == id && r.setField f v != r) then
      (db.map (fun r => if r.discord_id == id then r.setField f v else r),
       true, "Registration updated successfully")
    else (db, false, "User not found in registration database")
  else (db, false, "Invalid field: " ++ f)

/-! ## CSV export (`DatabaseManager.export_to_csv`) -/

/-- The fixed `fieldnames` header of the CSV export. -/
def csvHeader : List String :=
  ["last_name", "first_name", "photo", "year_major", "student_id",
   "phone", "email", "discord_id", "team", "timestamp"]

/-- One CSV data row: the stored columns in header order, the timestamp
rendered with `isoformat`. -/
def csvRow (r : Registration) : List String :=
  [r.last_name, r.first_name, r.photo, r.year_major, r.student_id,
   r.phone, r.email, r.discord_id, r.team, r.timestamp.isoformat]

/-- Descending submission-time order used by the export query
(`ORDER BY timestamp DESC`). -/
def tsDesc (a b : Registration) : Prop :=
  b.timestamp.key ≤ a.timestamp.key

instance : DecidableRel tsDesc := fun a b => Nat.decLe b.timestamp.key a.timestamp.key

instance : IsTotal Registration tsDesc :=
  ⟨fun a b => by unfold tsDesc; exact Nat.le_total _ _⟩

instance : IsTrans Registration tsDesc :=
  ⟨fun _ _ _ hab hbc => by unfold tsDesc at *; exact Nat.le_trans hbc hab⟩

/-- Model of `DatabaseManager.export_to_csv` (successful attempt): select all
rows ordered by timestamp descending; with zero rows return `none` (`False`,
no file written); otherwise return the written file as header plus data rows. -/
def export_to_csv (db : List Registration) : Option (List (List String)) :=
  let regs := List.insertionSort tsDesc db
  if regs.isEmpty then none
  else some (csvHeader :: regs.map csvRow)

/-! ## Bounded-retry discipline (`for attempt in range(2)` in `database.py`)

Every persistence operation wraps its body in a two-iteration loop: a
`pymysql` `OperationalError`/`InterfaceError` (transient connectivity error)
triggers a best-effort reconnect and a second iteration, while any other
exception (non-transient) returns the operation's failure value at once.
The body's outcome on each attempt is an oracle `Nat → Except DbErr α`. -/

/-- Exception classes distinguished by the retry loops: the caught
connectivity pair versus every other exception, each carrying `str(e)`. -/
inductive DbErr where
  | transient (msg : String)
  | nonTransient (msg : String)
deriving Repr, DecidableEq

/-- The `str(e)` payload of an exception. -/
def DbErr.msg : DbErr → String
  | .transient m => m
  | .nonTransient m => m

/-- The shared loop shape of all nine operations, returning
`(result, attemptsRun, reconnectsTried)`.  Attempt 0 runs; a transient error
reconnects and runs attempt 1; a transient error there reconnects again and
yields the failure value; a non-transient error yields the failure value
immediately with no further attempt. -/
def retryTwice {α : Type} (body : Nat → Except DbErr α) (fail : DbErr → α) :
    α × Nat × Nat :=
  match body 0 with
  | .ok a => (a, 1, 0)
  | .error (.nonTransient m) => (fail (.nonTransient m), 1, 0)
  | .error (.transient _) =>
    match body 1 with
    | .ok a => (a, 2, 1)
    | .error (.transient m2) => (fail (.transient m2), 2, 2)
    | .error (.nonTransient m2) => (fail (.nonTransient m2), 2, 1)

/-- Retry wrapper of `save_registration`; failure value `False`. -/
def save_registration_retry (body : Nat → Except DbErr Bool) : Bool × Nat × Nat :=
  retryTwice body (fun _ => false)

/-- Retry wrapper of `is_user_registered`; failure value `False`. -/
def is_user_registered_retry (body : Nat → Except DbErr Bool) : Bool × Nat × Nat :=
  retryTwice body (fun _ => false)

/-- Retry wrapper of `get_user_registration`; failure value `None`. -/
def get_user_registration_retry (body : Nat → Except DbErr (Option Registration)) :
    Option Registration × Nat × Nat :=
  retryTwice body (fun _ => none)

/-- Retry wrapper of `get_registered_discord_ids`; failure value the empty set. -/
def get_registered_discord_ids_retry (body : Nat → Except DbErr (List String)) :
    List String × Nat × Nat :=
  retryTwice body (fun _ => [])

/-- Retry wrapper of `get_registration_stats`; failure value the zeroed stats
dict `\x7b'total': 0, 'teams': \x7b\x7d, 'latest': None\x7d`. -/
def get_registration_stats_retry (body : Nat → Except DbErr Stats) : Stats × Nat × Nat :=
  retryTwice body (fun _ => ⟨0, [], none⟩)

/-- Retry wrapper of `remove_user_registration`; failure value `False`. -/
def remove_user_registration_retry (body : Nat → Except DbErr Bool) : Bool × Nat × Nat :=
  retryTwice body (fun _ => false)

/-- Retry wrapper of `modify_user_registration`; failure value
`(False, "Error updating registration: " ++ str(e))`. -/
def modify_user_registration_retry (body : Nat → Except DbErr (Bool × String)) :
    (Bool × String) × Nat × Nat :=
  retryTwice body (fun e => (false, "Error updating registration: " ++ e.msg))

/-- Retry wrapper of `export_to_csv`; failure value `False`. -/
def export_to_csv_retry (body : Nat → Except DbErr Bool) : Bool × Nat × Nat :=
  retryTwice body (fun _ => false)

/-- Retry wrapper of `log_admin_action`; the operation returns nothing, so the
failure value is the unit return. -/
def log_admin_action_retry (body : Nat → Except DbErr Unit) : Unit × Nat × Nat :=
  retryTwice body (fun _ => ())

/-- The contract every wrapper satisfies: success passes through on one
attempt, a transient first failure reconnects and retries exactly once, a
second transient failure yields the failure value after two attempts, and a
non-transient first failure yields the failure value with no retry. -/
def retryContract {α : Type} (op : (Nat → Except DbErr α) → α × Nat × Nat)
    (fail : DbErr → α) : Prop :=
  ∀ (body : Nat → Except DbErr α) (a : α) (m m2 : String),
    (body 0 = .ok a → op body = (a, 1, 0)) ∧
    (body 0 = .error (.transient m) → body 1 = .ok a → op body = (a, 2, 1)) ∧
    (body 0 = .error (.transient m) → body 1 = .error (.transient m2) →
      op body = (fail (.transient m2), 2, 2)) ∧
    (body 0 = .error (.nonTransient m) → op body = (fail (.nonTransient m), 1, 0))

/-! ## Guild members, configuration, eligibility (`config.py`, `utils.py`) -/

/-- The slice of a guild member the system inspects: identity, roles, bot
flag, top-role position in the role hierarchy, and the administrator
permission bit. -/
structure Member where
  id : Nat
  displayName : String
  roleIds : List Nat
  bot : Bool
  topRolePos : Nat
  isAdminPerm : Bool
deriving Repr, DecidableEq

/-- The role-id sets read from `config.py`. -/
structure BotConfig where
  adminRoleIds : List Nat
  adminUserIds : List Nat
  excludedRoleIds : List Nat
  existingTeamRoleIds : List Nat
deriving Repr, DecidableEq

/-- Model of `utils.check_registration_eligibility`: a member holding any
excluded role is ineligible with the fixed reason; everyone else is eligible. -/
def check_registration_eligibility (cfg : BotConfig) (m : Member) : Bool × String :=
  if m.roleIds.any (fun r => cfg.excludedRoleIds.contains r) then
    (false, "You\x27re not concerned with this registration")
  else (true, "")

/-- A member holds at least one configured existing-team role. -/
def hasExistingTeam (cfg : BotConfig) (m : Member) : Bool :=
  m.roleIds.any (fun r => cfg.existingTeamRoleIds.contains r)

/-- Model of `utils.get_unregistered_members_with_teams`: walk the roster in
order and split the eligible unregistered members by whether they hold an
existing-team role; everyone else is dropped from both buckets. -/
def get_unregistered_members_with_teams (cfg : BotConfig) (registeredIds : List String) :
    List Member → List Member × List Member
  | [] => ([], [])
  | m :: rest =>
    let (wt, wo) := get_unregistered_members_with_teams cfg registeredIds rest
    if !registeredIds.contains (toString m.id) then
      if (check_registration_eligibility cfg m).1 then
        if hasExistingTeam cfg m then (m :: wt, wo) else (wt, m :: wo)
      else (wt, wo)
    else (wt, wo)

/-! ## Registration flow state machine (`views.py`, `modals.py`)

Each interaction handler re-reads the live table, re-checks eligibility and
the not-already-registered precondition, validates the data collected so far,
and only then advances the flow. -/

/-- The stage the actor's flow session is at after a handler runs. -/
inductive FlowStage where
  | start
  | basicInfoCaptured
  | contactInfoCaptured
  | committed
deriving Repr, DecidableEq

/-- The user-visible outcome of one handler invocation. -/
inductive FlowOutcome where
  | refusedIneligible (reason : String)
  | refusedAlreadyRegistered
  | validationErrors (errors : List String)
  | proceeded
  | committed
  | saveFailed
deriving Repr, DecidableEq

/-- Model of `RegistrationView.register_button`: eligibility check, then the
already-registered check against the live table, then the basic-info modal is
opened. -/
def register_button (cfg : BotConfig) (db : List Registration) (member : Member) :
    FlowOutcome :=
  let elig := check_registration_eligibility cfg member
  if !elig.1 then .refusedIneligible elig.2
  else if isRegisteredDb db (toString member.id) then .refusedAlreadyRegistered
  else .proceeded

/-- The error list accumulated by `RegistrationModal.on_submit`, in source
order: every failing basic-info field contributes its own message. -/
def basicInfoErrors (nom prenom photo annee matricule : String) : List String :=
  (if pyStrip nom = "" then ["Last Name cannot be empty"] else []) ++
  (if pyStrip prenom = "" then ["First Name cannot be empty"] else []) ++
  (if pyStrip annee = "" then ["Year + Field of Study cannot be empty"] else []) ++
  (if pyStrip photo = "" then ["Photo URL cannot be empty"] else []) ++
  (if pyStrip matricule = "" then ["Student ID cannot be empty"]
   else if !pyIsDigit (pyStrip matricule) then
     ["Student ID must contain only numbers (no letters, spaces, or symbols)"]
   else if (pyStrip matricule).length < 5 then
     ["Student ID must be at least 5 digits long"]
   else [])

/-- Model of `RegistrationModal.on_submit` (the Start to BasicInfoCaptured
transition): eligibility re-check, already-registered re-check, then full
validation; on any validation failure the flow stays at `Start` and the whole
error list is reported at once. -/
def registration_on_submit (cfg : BotConfig) (db : List Registration) (member : Member)
    (nom prenom photo annee matricule : String) : FlowStage × FlowOutcome :=
  let elig := check_registration_eligibility cfg member
  if !elig.1 then (.start, .refusedIneligible elig.2)
  else if isRegisteredDb db (toString member.id) then (.start, .refusedAlreadyRegistered)
  else
    let es := basicInfoErrors nom prenom photo annee matricule
    if es = [] then (.basicInfoCaptured, .proceeded)
    else (.start, .validationErrors es)

/-- The phone check of `ContactInfoModal.on_submit`: strip non-digits, then
require exactly 10 digits. -/
def phoneCheck (phone : String) : Option String :=
  let pc := stripNonDigits phone
  if pc = "" then some "Phone number cannot be empty"
  else if pc.length ≠ 10 then some "Phone number must be exactly 10 digits long"
  else none

/-- The email check of `ContactInfoModal.on_submit`. -/
def emailCheck (email : String) : Option String :=
  if pyStrip email = "" then some "Email address cannot be empty"
  else if !validate_email (pyStrip email) then
    some "Please enter a valid email address (e.g., name@example.com)"
  else if 100 < (pyStrip email).length then
    some "Email address is too long (maximum 100 characters)"
  else none

/-- The error list accumulated by `ContactInfoModal.on_submit`. -/
def contactErrors (phone email : String) : List String :=
  (phoneCheck phone).toList ++ (emailCheck email).toList

/-- Result of the contact-info stage: the stage reached, the outcome, and the
phone value carried into the team-selection view (the cleaned digits) when the
stage advances. -/
structure ContactResult where
  stage : FlowStage
  outcome : FlowOutcome
  storedPhone : Option String
deriving Repr, DecidableEq

/-- Model of `ContactInfoModal.on_submit` (BasicInfoCaptured to
ContactInfoCaptured): eligibility and already-registered re-checks, then
phone/email validation; on success the stripped phone is stored in the
session state handed to `TeamSelectionView`. -/
def contact_on_submit (cfg : BotConfig) (db : List Registration) (member : Member)
    (phone email : String) : ContactResult :=
  let elig := check_registration_eligibility cfg member
  if !elig.1 then ⟨.basicInfoCaptured, .refusedIneligible elig.2, none⟩
  else if isRegisteredDb db (toString member.id) then
    ⟨.basicInfoCaptured, .refusedAlreadyRegistered, none⟩
  else
    let es := contactErrors phone email
    if es = [] then ⟨.contactInfoCaptured, .proceeded, some (stripNonDigits phone)⟩
    else ⟨.basicInfoCaptured, .validationErrors es, none⟩

/-- The write half of `TeamSelectionView.handle_team_selection`, after its
pre-checks have passed: hand the assembled record to
`save_registration`, whose insert is arbitrated by the `UNIQUE` constraint. -/
def commitAfterChecks (db : List Registration) (reg : Registration) :
    List Registration × FlowOutcome :=
  match saveRegistrationDb db reg with
  | (db2, true) => (db2, .committed)
  | (db2, false) => (db2, .saveFailed)

/-- Model of `TeamSelectionView.handle_team_selection`: final eligibility
check, final already-registered check against the live table, then the team is
stored into the session record and the insert is attempted. -/
def handle_team_selection (cfg : BotConfig) (db : List Registration) (member : Member)
    (data : Registration) (team : String) : List Registration × FlowOutcome :=
  let elig := check_registration_eligibility cfg member
  if !elig.1 then (db, .refusedIneligible elig.2)
  else if isRegisteredDb db data.discord_id then (db, .refusedAlreadyRegistered)
  else commitAfterChecks db { data with team := team }

/-! ## Deadline-kick candidate filtering (`main.py`, `kick_new_members`) -/

/-- Model of the pre-filter loop in `kick_new_members`: walk the unregistered
new members in order; a bot is passed over with a bare `continue`, a member
whose top role is at or above the bot account's own is recorded as skipped
with a "(higher role)" note, a member with the administrator permission is
recorded as skipped with an "(admin)" note, and everyone else is kickable.
`agent` is the bot's own member object (`bot_member` in the source). -/
def kickFilter (agent : Member) : List Member → List Member × List String
  | [] => ([], [])
  | m :: rest =>
    let (k, s) := kickFilter agent rest
    if m.bot then (k, s)
    else if agent.topRolePos ≤ m.topRolePos then
      (k, (m.displayName ++ " (higher role)") :: s)
    else if m.isAdminPerm then (k, (m.displayName ++ " (admin)") :: s)
    else (m :: k, s)

/-- The reason string attached to a reported-skipped member. -/
def skippedLabel (agent m : Member) : String :=
  if agent.topRolePos ≤ m.topRolePos then m.displayName ++ " (higher role)"
  else m.displayName ++ " (admin)"

/-! ## Connection management (`DatabaseManager.ensure_connection`, `connect`) -/

/-- The exception classes relevant to `ensure_connection`: the three caught by
its `except` clause (`OperationalError`, `InterfaceError`, `AttributeError`)
and every other exception. -/
inductive PyErr where
  | operational
  | interface
  | attributeError
  | other
deriving Repr, DecidableEq

/-- Whether `ensure_connection`'s `except` clause catches the exception. -/
def isCaughtByEnsure : PyErr → Bool
  | .operational => true
  | .interface => true
  | .attributeError => true
  | .other => false

/-- The connection-manager state: the current connection (tagged by a
generation number) and the time of the last successful liveness check. -/
structure ConnState where
  connection : Option Nat
  last_ping : Nat
deriving Repr, DecidableEq

/-- The environment one `ensure_connection` call runs in: the current time and
the outcomes fate assigns to the first `connect()` call, the fallback
`connect()` call, and the `ping(reconnect=True)` probe (`none` = succeeds). -/
structure ConnEnv where
  now : Nat
  connect1 : Option PyErr
  connect2 : Option PyErr
  ping : Option PyErr
deriving Repr, DecidableEq

/-- Model of `DatabaseManager.connect`: on success installs a fresh connection
and stamps `last_ping`; on failure re-raises the underlying exception. -/
def connectStep (outcome : Option PyErr) (now generation : Nat) : Except PyErr ConnState :=
  match outcome with
  | none => .ok ⟨some generation, now⟩
  | some err => .error err

/-- The `try` block of `ensure_connection`: with no connection, call
`connect`; with a connection older than the 300s staleness threshold, probe it
with `ping(reconnect=True)` and stamp the check time; otherwise nothing. -/
def ensureBody (st : ConnState) (env : ConnEnv) : Except PyErr ConnState :=
  match st.connection with
  | none => connectStep env.connect1 env.now 1
  | some c =>
    if 300 < env.now - st.last_ping then
      match env.ping with
      | none => .ok ⟨some c, env.now⟩
      | some err => .error err
    else .ok st

/-- Model of `DatabaseManager.ensure_connection`: run the `try` block; a
raised `OperationalError`, `InterfaceError` or `AttributeError` falls back to
one full `connect` attempt, whose own failure propagates; any other exception
propagates directly. -/
def ensure_connection (st : ConnState) (env : ConnEnv) : Except PyErr ConnState :=
  match ensureBody st env with
  | .ok st2 => .ok st2
  | .error err =>
    if isCaughtByEnsure err then connectStep env.connect2 env.now 2
    else .error err

/-! ## Concrete fixtures used to evaluate the theorems on closed inputs -/

/-- A small configuration: role 99 is excluded, role 7 is an existing-team role. -/
def cfgW : BotConfig := ⟨[1], [], [99], [7]⟩

/-- An eligible member with no roles. -/
def memberW : Member := ⟨42, "Alice", [], false, 0, false⟩

/-- A sample submission timestamp. -/
def sampleTime : DateTime := ⟨2025, 10, 1, 12, 30, 5⟩

/-- A stored registration row for actor "42". -/
def sampleReg : Registration :=
  ⟨"42", "Doe", "John", "http://photos/p.jpg", "3rd Year CS", "12345",
   "0123456789", "john@mail.com", "IT", sampleTime⟩

/-- A second, distinct registration attempt by the same actor "42". -/
def sampleReg2 : Registration := { sampleReg with first_name := "Johnny" }

/-- Existing-team members of the reconciliation example roster. -/
def teamM1 : Member := ⟨1, "T1", [7], false, 0, false⟩

/-- Second existing-team member of the roster. -/
def teamM2 : Member := ⟨2, "T2", [7], false, 0, false⟩

/-- A new member of the roster, with no roles. -/
def newM3 : Member := ⟨3, "N3", [], false, 0, false⟩

/-- Another new member of the roster. -/
def newM4 : Member := ⟨4, "N4", [], false, 0, false⟩

/-- Another new member of the roster. -/
def newM5 : Member := ⟨5, "N5", [], false, 0, false⟩

/-- A member holding the excluded role 99. -/
def excludedW : Member := ⟨6, "Ex", [99], false, 0, false⟩

/-- The six-member roster of the reconciliation example. -/
def rosterW : List Member := [teamM1, teamM2, newM3, newM4, newM5, excludedW]

/-- The acting bot account of the kick examples, with top-role position 10. -/
def agentW : Member := ⟨100, "BotAgent", [], true, 10, false⟩

/-- An unregistered bot account among the kick candidates. -/
def botW : Member := ⟨200, "Helper", [], true, 0, false⟩

/-- An unregistered member with the administrator permission. -/
def adminW : Member := ⟨300, "Boss", [], false, 0, true⟩

/-! ## Theorems settling the claims -/

/-- The retry contract holds for any operation built from `retryTwice`. -/
theorem retryTwice_contract {α : Type} (fail : DbErr → α) :
    retryContract (fun body => retryTwice body fail) fail := by
  intro body a m m2
  refine ⟨?_, ?_, ?_, ?_⟩
  · intro h1; simp [retryTwice, h1]
  · intro h1 h2; simp [retryTwice, h1, h2]
  · intro h1 h2; simp [retryTwice, h1, h2]
  · intro h1; simp [retryTwice, h1]

/-- C2: every persistence operation (`save_registration`, `is_user_registered`,
`get_user_registration`, `get_registered_discord_ids`, `get_registration_stats`,
`remove_user_registration`, `modify_user_registration`, `export_to_csv`,
`log_admin_action`) runs a bounded retry of exactly two attempts: a transient
connectivity error on attempt 1 reconnects and retries exactly once more; a
transient failure on attempt 2 returns the operation's defined failure value
(`false`, `none`, empty set, zeroed stats dict, unit); a non-transient error
returns the failure value immediately with no second attempt. -/
theorem C2_retry_discipline :
    retryContract save_registration_retry (fun _ => false) ∧
    retryContract is_user_registered_retry (fun _ => false) ∧
    retryContract get_user_registration_retry (fun _ => none) ∧
    retryContract get_registered_discord_ids_retry (fun _ => []) ∧
    retryContract get_registration_stats_retry (fun _ => ⟨0, [], none⟩) ∧
    retryContract remove_user_registration_retry (fun _ => false) ∧
    retryContract modify_user_registration_retry
      (fun e => (false, "Error updating registration: " ++ e.msg)) ∧
    retryContract export_to_csv_retry (fun _ => false) ∧
    retryContract log_admin_action_retry (fun _ => ()) :=
  ⟨retryTwice_contract _, retryTwice_contract _, retryTwice_contract _,
   retryTwice_contract _, retryTwice_contract _, retryTwice_contract _,
   retryTwice_contract _, retryTwice_contract _, retryTwice_contract _⟩

/-- Witness for C2: a `modify_user_registration` whose two attempts both fail
transiently returns the `(False, reason)` failure value after exactly two
attempts and two reconnects. -/
theorem C2_retry_discipline_witness :
    modify_user_registration_retry (fun _ => Except.error (DbErr.transient "boom")) =
      ((false, "Error updating registration: boom"), 2, 2) := by
  have h := (C2_retry_discipline.2.2.2.2.2.2.1
    (fun _ => Except.error (DbErr.transient "boom")) (false, "") "boom" "boom").2.2.1 rfl rfl
  simpa using h

/-- C3: `modify_user_registration` with a field name outside the 8 recognized
editable attributes fails immediately with `"Invalid field: <name>"` and
modifies no row; with a recognized field it returns
`(True, "Registration updated successfully")` when a row was updated (the
update changed it), updating exactly that column of the matched rows, and
`(False, "User not found in registration database")` when zero rows were
affected — no row with that id, or the stored value already equal to the new
one — leaving the table unchanged. -/
theorem C3_modify_field_mapping (db : List Registration) (id f v : String) :
    (f ∉ field_mapping →
      modify_user_registration db id f v = (db, false, "Invalid field: " ++ f)) ∧
    (f ∈ field_mapping → (∃ r ∈ db, r.discord_id = id ∧ r.setField f v ≠ r) →
      modify_user_registration db id f v =
        (db.map (fun r => if r.discord_id == id then r.setField f v else r),
         true, "Registration updated successfully")) ∧
    (f ∈ field_mapping → (∀ r ∈ db, r.discord_id = id → r.setField f v = r) →
      modify_user_registration db id f v =
        (db, false, "User not found in registration database")) ∧
    modify_user_registration [sampleReg] "42" "team" "IT" =
      ([sampleReg], false, "User not found in registration database") ∧
    (∀ r : Registration,
      (r.setField f v).discord_id = r.discord_id ∧
      (r.setField f v).timestamp = r.timestamp ∧
      (f ≠ "first_name" → (r.setField f v).first_name = r.first_name) ∧
      (f ≠ "last_name" → (r.setField f v).last_name = r.last_name) ∧
      (f ≠ "email" → (r.setField f v).email = r.email) ∧
      (f ≠ "phone" → (r.setField f v).phone = r.phone) ∧
      (f ≠ "team" → (r.setField f v).team = r.team) ∧
      (f ≠ "student_id" → (r.setField f v).student_id = r.student_id) ∧
      (f ≠ "year_major" → (r.setField f v).year_major = r.year_major) ∧
      (f ≠ "photo" → (r.setField f v).photo = r.photo)) := by
  refine ⟨?_, ?_, ?_, by decide, ?_⟩
  · intro hf
    simp [modify_user_registration, hf]
  · rintro hf ⟨r, hr, hid, hchg⟩
    have hpos : 0 < db.countP (fun r => r.discord_id == id && r.setField f v != r) := by
      rw [List.countP_pos_iff]
      exact ⟨r, hr, by simp [hid, hchg]⟩
    simp [modify_user_registration, hf, hpos]
  · intro hf hupd
    have hzero : db.countP (fun r => r.discord_id == id && r.setField f v != r) = 0 := by
      rw [List.countP_eq_zero]
      intro r hr
      by_cases hid : r.discord_id = id
      · simp [hid, hupd r hr hid]
      · simp [hid]
    simp [modify_user_registration, hf, hzero]
  · intro r
    unfold Registration.setField
    split_ifs <;>
      refine ⟨rfl, rfl, ?_, ?_, ?_, ?_, ?_, ?_, ?_, ?_⟩ <;>
        intro hne <;>
          first
            | rfl
            | exact absurd (by assumption) hne

/-- Witness for C3: a bogus field name fails immediately without touching the
row, and a recognized edit of the team column succeeds. -/
theorem C3_modify_field_mapping_witness :
    modify_user_registration [sampleReg] "42" "bogus_field" "x" =
      ([sampleReg], false, "Invalid field: bogus_field") ∧
    modify_user_registration [sampleReg] "42" "team" "Design" =
      ([{ sampleReg with team := "Design" }], true, "Registration updated successfully") := by
  constructor
  · exact (C3_modify_field_mapping [sampleReg] "42" "bogus_field" "x").1 (by decide)
  · have h := (C3_modify_field_mapping [sampleReg] "42" "team" "Design").2.1 (by decide)
      ⟨sampleReg, by decide, by decide, by decide⟩
    rw [h]
    decide

/-- Counterexample for C10: the claim's success clause does not hold for every
value when the actor exists — actor "42" has a stored row with team "IT", yet
`modify_user_registration` of the team column to that same value changes zero
rows and reports `(False, "User not found in registration database")` rather
than succeeding. -/
theorem C10_counterexample :
    sampleReg.discord_id = "42" ∧ sampleReg ∈ ([sampleReg] : List Registration) ∧
    modify_user_registration [sampleReg] "42" "team" "IT" =
      ([sampleReg], false, "User not found in registration database") := by decide

/-- C10 (amended): `modify_user_registration` performs no value validation:
whenever the actor has a stored row and the new value differs from the stored
one, an edit of a recognized field succeeds and stores the raw value, even
when `validate_field_value` rejects that value — a team outside the 6 codes,
a phone that is not 10 digits, or a malformed email are all stored as given,
so admin edits can violate the data-model constraints.  (A same-value edit
changes zero rows and reports failure.) -/
theorem C10_modify_skips_validation
    (db : List Registration) (id v : String) (r : Registration)
    (hr : r ∈ db) (hid : r.discord_id = id) (hchg : r.team ≠ v) :
    ((modify_user_registration db id "team" v).2.1 = true ∧
     (modify_user_registration db id "team" v).2.2 = "Registration updated successfully" ∧
     { r with team := v } ∈ (modify_user_registration db id "team" v).1) ∧
    validate_field_value "team" "Bogus" =
      some "Invalid team. Must be one of: IT, Design, Marketing, B2B, OPS, HR" ∧
    validate_field_value "phone" "123456789" =
      some "Phone number must be exactly 10 digits" ∧
    validate_field_value "email" "notanemail" = some "Invalid email format" ∧
    modify_user_registration [sampleReg] "42" "team" "Bogus" =
      ([{ sampleReg with team := "Bogus" }], true, "Registration updated successfully") ∧
    modify_user_registration [sampleReg] "42" "phone" "123456789" =
      ([{ sampleReg with phone := "123456789" }], true, "Registration updated successfully") ∧
    modify_user_registration [sampleReg] "42" "email" "notanemail" =
      ([{ sampleReg with email := "notanemail" }], true, "Registration updated successfully") := by
  have hset : r.setField "team" v = { r with team := v } := by
    simp [Registration.setField]
  have hne : r.setField "team" v ≠ r := by
    rw [hset]
    intro hc
    exact hchg (congrArg Registration.team hc).symm
  have hpos : 0 < db.countP (fun x => x.discord_id == id && x.setField "team" v != x) := by
    rw [List.countP_pos_iff]
    exact ⟨r, hr, by simp [hid, hne]⟩
  refine ⟨⟨?_, ?_, ?_⟩, by decide, by decide, by decide, by decide, by decide, by decide⟩
  · simp [modify_user_registration, field_mapping, hpos]
  · simp [modify_user_registration, field_mapping, hpos]
  · simp only [modify_user_registration, field_mapping]
    simp only [List.mem_cons, List.mem_singleton]
    simp [hpos]
    refine ⟨r, hr, ?_⟩
    simp [hid, Registration.setField]

/-- Witness for C10 (amended): the stored team of actor "42" becomes the
non-team value "Bogus" even though the field validator rejects it. -/
theorem C10_modify_skips_validation_witness :
    { sampleReg with team := "Bogus" } ∈
      (modify_user_registration [sampleReg] "42" "team" "Bogus").1 ∧
    validate_field_value "team" "Bogus" =
      some "Invalid team. Must be one of: IT, Design, Marketing, B2B, OPS, HR" := by
  have h := C10_modify_skips_validation [sampleReg] "42" "Bogus" sampleReg
    (by decide) (by decide) (by decide)
  exact ⟨h.1.2.2, h.2.1⟩

/-- C5: `export_to_csv` returns no file for an empty table; otherwise it
writes the fixed header
`last_name,first_name,photo,year_major,student_id,phone,email,discord_id,team,timestamp`
followed by one row per stored registration, ordered by submission timestamp
descending, each row reproducing every stored field exactly with the
timestamp rendered in ISO-8601 form. -/
theorem C5_export_csv (db : List Registration) (h : db ≠ []) :
    export_to_csv db =
      some (csvHeader :: (List.insertionSort tsDesc db).map csvRow) ∧
    (List.insertionSort tsDesc db).Perm db ∧
    List.Sorted tsDesc (List.insertionSort tsDesc db) ∧
    export_to_csv [] = none ∧
    String.intercalate "," csvHeader =
      "last_name,first_name,photo,year_major,student_id,phone,email,discord_id,team,timestamp" ∧
    (∀ r ∈ db, csvRow r =
      [r.last_name, r.first_name, r.photo, r.year_major, r.student_id,
       r.phone, r.email, r.discord_id, r.team, r.timestamp.isoformat]) := by
  have hperm : (List.insertionSort tsDesc db).Perm db := List.perm_insertionSort tsDesc db
  have hne : (List.insertionSort tsDesc db).isEmpty = false := by
    cases hie : (List.insertionSort tsDesc db).isEmpty
    · rfl
    · have hnil : List.insertionSort tsDesc db = [] := List.isEmpty_iff.mp hie
      have hdb : db.Perm [] := (hnil ▸ hperm).symm
      exact absurd hdb.eq_nil h
  refine ⟨?_, hperm, List.sorted_insertionSort tsDesc db, rfl, by decide, ?_⟩
  · simp [export_to_csv, hne]
  · intro r _
    rfl

/-- Witness for C5: exporting the one-row table yields the header and that
row, and exporting the empty table yields no file. -/
theorem C5_export_csv_witness :
    export_to_csv [sampleReg] =
      some (csvHeader :: (List.insertionSort tsDesc [sampleReg]).map csvRow) ∧
    export_to_csv [] = (none : Option (List (List String))) := by
  have h := C5_export_csv [sampleReg] (by decide)
  exact ⟨h.1, h.2.2.2.1⟩

/-- C6: phone validation strips all non-digit characters and accepts exactly
when 10 digits remain, and the contact stage stores the stripped form; the
input "01-23 45 67 89" normalizes to "0123456789" and passes, while a
stripped form with any other digit count is rejected with the message
matching its count (the exactly-10-digits message, or the emptiness message
for zero digits). -/
theorem C6_phone_validation (phone : String) (cfg : BotConfig) (db : List Registration)
    (member : Member) (email : String)
    (helig : (check_registration_eligibility cfg member).1 = true)
    (hreg : isRegisteredDb db (toString member.id) = false) :
    (phoneCheck phone = none ↔ (stripNonDigits phone).length = 10) ∧
    (stripNonDigits phone ≠ "" → (stripNonDigits phone).length ≠ 10 →
      phoneCheck phone = some "Phone number must be exactly 10 digits long") ∧
    (stripNonDigits phone = "" →
      phoneCheck phone = some "Phone number cannot be empty") ∧
    (contactErrors phone email = [] →
      contact_on_submit cfg db member phone email =
        ⟨.contactInfoCaptured, .proceeded, some (stripNonDigits phone)⟩) ∧
    stripNonDigits "01-23 45 67 89" = "0123456789" ∧
    phoneCheck "01-23 45 67 89" = none ∧
    phoneCheck "012345678" = some "Phone number must be exactly 10 digits long" := by
  refine ⟨?_, ?_, ?_, ?_, by decide, by decide, by decide⟩
  · by_cases h1 : stripNonDigits phone = ""
    · have : (stripNonDigits phone).length = 0 := by rw [h1]; rfl
      simp [phoneCheck, h1, this]
    · by_cases h2 : (stripNonDigits phone).length = 10
      · simp [phoneCheck, h1, h2]
      · simp [phoneCheck, h1, h2]
  · intro h1 h2
    simp [phoneCheck, h1, h2]
  · intro h1
    simp [phoneCheck, h1]
  · intro hok
    simp [contact_on_submit, helig, hreg, hok]

/-- Witness for C6: the punctuated 10-digit phone is accepted and carried
forward in stripped form by the contact stage. -/
theorem C6_phone_validation_witness :
    contact_on_submit cfgW [] memberW "01-23 45 67 89" "a.b@mail.com" =
      ⟨FlowStage.contactInfoCaptured, FlowOutcome.proceeded, some "0123456789"⟩ := by
  have h := (C6_phone_validation "01-23 45 67 89" cfgW [] memberW "a.b@mail.com"
    (by decide) (by decide)).2.2.2.1 (by decide)
  rw [h]
  decide

/-- C7: when the basic-info stage fails validation the flow stays at `Start`
and reports the whole error list at once: every failing field contributes its
own message, and in particular a submission with an empty last name and a
non-digit student id yields a list containing both complaints. -/
theorem C7_validation_completeness (cfg : BotConfig) (db : List Registration)
    (member : Member) (nom prenom photo annee matricule : String)
    (helig : (check_registration_eligibility cfg member).1 = true)
    (hreg : isRegisteredDb db (toString member.id) = false) :
    (basicInfoErrors nom prenom photo annee matricule ≠ [] →
      registration_on_submit cfg db member nom prenom photo annee matricule =
        (.start, .validationErrors (basicInfoErrors nom prenom photo annee matricule))) ∧
    (pyStrip nom = "" →
      "Last Name cannot be empty" ∈ basicInfoErrors nom prenom photo annee matricule) ∧
    (pyStrip prenom = "" →
      "First Name cannot be empty" ∈ basicInfoErrors nom prenom photo annee matricule) ∧
    (pyStrip annee = "" →
      "Year + Field of Study cannot be empty" ∈
        basicInfoErrors nom prenom photo annee matricule) ∧
    (pyStrip photo = "" →
      "Photo URL cannot be empty" ∈ basicInfoErrors nom prenom photo annee matricule) ∧
    (pyStrip matricule = "" →
      "Student ID cannot be empty" ∈ basicInfoErrors nom prenom photo annee matricule) ∧
    (pyStrip matricule ≠ "" → pyIsDigit (pyStrip matricule) = false →
      "Student ID must contain only numbers (no letters, spaces, or symbols)" ∈
        basicInfoErrors nom prenom photo annee matricule) ∧
    (pyIsDigit (pyStrip matricule) = true → (pyStrip matricule).length < 5 →
      "Student ID must be at least 5 digits long" ∈
        basicInfoErrors nom prenom photo annee matricule) ∧
    ("Last Name cannot be empty" ∈ basicInfoErrors "" "John" "http://p" "3rd CS" "12a45" ∧
     "Student ID must contain only numbers (no letters, spaces, or symbols)" ∈
       basicInfoErrors "" "John" "http://p" "3rd CS" "12a45") := by
  refine ⟨?_, ?_, ?_, ?_, ?_, ?_, ?_, ?_, by decide, by decide⟩
  · intro hes
    simp [registration_on_submit, helig, hreg, hes]
  · intro h1
    simp [basicInfoErrors, h1]
  · intro h1
    simp [basicInfoErrors, h1]
  · intro h1
    simp [basicInfoErrors, h1]
  · intro h1
    simp [basicInfoErrors, h1]
  · intro h1
    simp [basicInfoErrors, h1]
  · intro h1 h2
    simp [basicInfoErrors, h1, h2]
  · intro h1 h2
    have hne : pyStrip matricule ≠ "" := by
      intro hc
      rw [hc] at h1
      exact absurd h1 (by decide)
    simp [basicInfoErrors, hne, h1, h2, Nat.not_le.mpr h2]

/-- Witness for C7: submitting an empty last name together with the non-digit
student id "12a45" is rejected at `Start` with both complaints in the list. -/
theorem C7_validation_completeness_witness :
    registration_on_submit cfgW [] memberW "" "John" "http://p" "3rd CS" "12a45" =
      (FlowStage.start, FlowOutcome.validationErrors
        ["Last Name cannot be empty",
         "Student ID must contain only numbers (no letters, spaces, or symbols)"]) := by
  have h := (C7_validation_completeness cfgW [] memberW "" "John" "http://p" "3rd CS" "12a45"
    (by decide) (by decide)).1 (by decide)
  rw [h]
  decide

/-- The reconciliation loop is the ordered pair of roster filters. -/
theorem unregistered_split_eq (cfg : BotConfig) (ids : List String)
    (members : List Member) :
    get_unregistered_members_with_teams cfg ids members =
      (members.filter (fun m => !ids.contains (toString m.id) &&
         (check_registration_eligibility cfg m).1 && hasExistingTeam cfg m),
       members.filter (fun m => !ids.contains (toString m.id) &&
         (check_registration_eligibility cfg m).1 && !hasExistingTeam cfg m)) := by
  induction members with
  | nil => rfl
  | cons m rest ih =>
    simp only [get_unregistered_members_with_teams, ih, List.filter]
    by_cases h1 : toString m.id ∈ ids <;>
      by_cases h2 : (check_registration_eligibility cfg m).1 = true <;>
        by_cases h3 : hasExistingTeam cfg m = true <;>
          simp [h1, h2, h3]

/-- C8: the reconciliation partitions exactly the eligible members whose id is
not in the registered-id set: each goes to the renewal bucket when holding a
configured existing-team role and otherwise to the new bucket; the buckets are
disjoint and together cover all eligible unregistered members, members holding
an excluded role appear in neither, and the 6-member example roster (2 with a
team role, 3 without, 1 excluded) yields bucket sizes 2 and 3. -/
theorem C8_reconciliation_partition (cfg : BotConfig) (ids : List String)
    (members : List Member) :
    (get_unregistered_members_with_teams cfg ids members).1 =
      members.filter (fun m => !ids.contains (toString m.id) &&
        (check_registration_eligibility cfg m).1 && hasExistingTeam cfg m) ∧
    (get_unregistered_members_with_teams cfg ids members).2 =
      members.filter (fun m => !ids.contains (toString m.id) &&
        (check_registration_eligibility cfg m).1 && !hasExistingTeam cfg m) ∧
    (∀ m, m ∈ (get_unregistered_members_with_teams cfg ids members).1 →
      m ∉ (get_unregistered_members_with_teams cfg ids members).2) ∧
    (∀ m ∈ members, toString m.id ∉ ids →
      (check_registration_eligibility cfg m).1 = true →
      m ∈ (get_unregistered_members_with_teams cfg ids members).1 ∨
      m ∈ (get_unregistered_members_with_teams cfg ids members).2) ∧
    (∀ m ∈ members, m.roleIds.any (fun r => cfg.excludedRoleIds.contains r) = true →
      m ∉ (get_unregistered_members_with_teams cfg ids members).1 ∧
      m ∉ (get_unregistered_members_with_teams cfg ids members).2) ∧
    ((get_unregistered_members_with_teams cfgW [] rosterW).1.length = 2 ∧
     (get_unregistered_members_with_teams cfgW [] rosterW).2.length = 3 ∧
     excludedW ∉ (get_unregistered_members_with_teams cfgW [] rosterW).1 ∧
     excludedW ∉ (get_unregistered_members_with_teams cfgW [] rosterW).2) := by
  have hsplit := unregistered_split_eq cfg ids members
  have h1 : (get_unregistered_members_with_teams cfg ids members).1 =
      members.filter (fun m => !ids.contains (toString m.id) &&
        (check_registration_eligibility cfg m).1 && hasExistingTeam cfg m) := by
    rw [hsplit]
  have h2 : (get_unregistered_members_with_teams cfg ids members).2 =
      members.filter (fun m => !ids.contains (toString m.id) &&
        (check_registration_eligibility cfg m).1 && !hasExistingTeam cfg m) := by
    rw [hsplit]
  refine ⟨h1, h2, ?_, ?_, ?_, by decide, by decide, by decide, by decide⟩
  · intro m hm
    rw [h1, List.mem_filter] at hm
    rw [h2, List.mem_filter]
    intro hc
    simp only [Bool.and_eq_true, Bool.not_eq_true'] at hm hc
    exact absurd hm.2.2 (by simp [hc.2.2])
  · intro m hmem hunreg helig
    by_cases ht : hasExistingTeam cfg m = true
    · left
      rw [h1, List.mem_filter]
      simp [hmem, hunreg, helig, ht]
    · right
      rw [h2, List.mem_filter]
      simp only [Bool.not_eq_true] at ht
      simp [hmem, hunreg, helig, ht]
  · intro m hmem hexcl
    have helig : (check_registration_eligibility cfg m).1 = false := by
      simp only [check_registration_eligibility]
      rw [if_pos hexcl]
    constructor
    · rw [h1, List.mem_filter]
      intro hc
      simp [helig] at hc
    · rw [h2, List.mem_filter]
      intro hc
      simp [helig] at hc

/-- Witness for C8: on the example roster the excluded member lands in
neither bucket. -/
theorem C8_reconciliation_partition_witness :
    excludedW ∉ (get_unregistered_members_with_teams cfgW [] rosterW).1 ∧
    excludedW ∉ (get_unregistered_members_with_teams cfgW [] rosterW).2 :=
  (C8_reconciliation_partition cfgW [] rosterW).2.2.2.2.1 excludedW
    (by decide) (by decide)

/-- Counterexample for C4: a bot account among the unregistered candidates is
pre-filtered out of the kick list but never appears in the skipped report —
the skipped list stays empty, so an excluded member is silently dropped from
the report, contrary to the claim. -/
theorem C4_counterexample :
    botW.bot = true ∧ kickFilter agentW [botW] = ([], []) := by decide

/-- C4 (amended): the deadline-kick pre-filter keeps exactly the non-bot,
non-administrator candidates below the acting bot account's top role;
administrator and equal-or-higher-role members are all reported in the
skipped list with a reason, but bot accounts are silently omitted from both
the kick list and the skipped report. -/
theorem C4_kick_prefilter (agent : Member) (candidates : List Member) :
    (kickFilter agent candidates).1 = candidates.filter
      (fun m => !m.bot && !(decide (agent.topRolePos ≤ m.topRolePos)) && !m.isAdminPerm) ∧
    (kickFilter agent candidates).2 = (candidates.filter
      (fun m => !m.bot && (decide (agent.topRolePos ≤ m.topRolePos) || m.isAdminPerm))).map
        (skippedLabel agent) ∧
    (∀ m ∈ candidates, m.bot = true →
      m ∉ (kickFilter agent candidates).1) ∧
    (∀ m ∈ candidates, m.bot = false →
      (agent.topRolePos ≤ m.topRolePos ∨ m.isAdminPerm = true) →
      skippedLabel agent m ∈ (kickFilter agent candidates).2) := by
  have hsplit : ∀ l : List Member, kickFilter agent l =
      (l.filter (fun m => !m.bot && !(decide (agent.topRolePos ≤ m.topRolePos)) &&
         !m.isAdminPerm),
       (l.filter (fun m => !m.bot && (decide (agent.topRolePos ≤ m.topRolePos) ||
         m.isAdminPerm))).map (skippedLabel agent)) := by
    intro l
    induction l with
    | nil => rfl
    | cons m rest ih =>
      simp only [kickFilter, ih, List.filter]
      by_cases h1 : m.bot = true <;>
        by_cases h2 : agent.topRolePos ≤ m.topRolePos <;>
          by_cases h3 : m.isAdminPerm = true <;>
            simp [h1, h2, h3, skippedLabel]
  have h1 := congrArg Prod.fst (hsplit candidates)
  have h2 := congrArg Prod.snd (hsplit candidates)
  refine ⟨h1, h2, ?_, ?_⟩
  · intro m hmem hbot
    rw [h1, List.mem_filter]
    intro hc
    simp [hbot] at hc
  · intro m hmem hbot hcase
    rw [h2]
    refine List.mem_map_of_mem (skippedLabel agent) (List.mem_filter.mpr ⟨hmem, ?_⟩)
    rcases hcase with hc | hc <;> simp [hbot, hc]

/-- Witness for C4 (amended): an unregistered administrator is reported in
the skipped list with the "(admin)" note. -/
theorem C4_kick_prefilter_witness :
    skippedLabel agentW adminW ∈ (kickFilter agentW [botW, adminW]).2 :=
  (C4_kick_prefilter agentW [botW, adminW]).2.2.2 adminW (by decide) (by decide)
    (Or.inr (by decide))

/-- Counterexample for C9: when no connection is up and both the initial and
the fallback `connect` attempt fail with an `OperationalError`, that error
escapes `ensure_connection` to its caller — contrary to the claim that no
error ever escapes this layer. -/
theorem C9_counterexample :
    ensure_connection ⟨none, 0⟩ ⟨0, some PyErr.operational, some PyErr.operational, none⟩ =
      Except.error PyErr.operational := rfl

/-- C9 (amended): `ensure_connection` catches connectivity-class failures
(operational, interface, attribute errors) from the missing-connection path or
the staleness probe and falls back to one full reconnect attempt; whenever the
reconnect attempts succeed and any probe failure is of a caught class, no
error escapes and a live connection is left in place — but a failing fallback
reconnect, or a non-caught exception, propagates to the caller. -/
theorem C9_ensure_connection (st : ConnState) (env : ConnEnv)
    (h1 : env.connect1 = none) (h2 : env.connect2 = none)
    (hp : ∀ e, env.ping = some e → isCaughtByEnsure e = true) :
    ∃ st2, ensure_connection st env = .ok st2 ∧ st2.connection.isSome = true := by
  cases hc : st.connection with
  | none =>
    refine ⟨⟨some 1, env.now⟩, ?_, rfl⟩
    simp [ensure_connection, ensureBody, hc, h1, connectStep]
  | some c =>
    by_cases hstale : 300 < env.now - st.last_ping
    · cases hping : env.ping with
      | none =>
        refine ⟨⟨some c, env.now⟩, ?_, rfl⟩
        simp [ensure_connection, ensureBody, hc, hstale, hping]
      | some e =>
        have hcaught := hp e hping
        refine ⟨⟨some 2, env.now⟩, ?_, rfl⟩
        simp [ensure_connection, ensureBody, hc, hstale, hping, hcaught, h2, connectStep]
    · refine ⟨st, ?_, by rw [hc]; rfl⟩
      simp [ensure_connection, ensureBody, hc, hstale]

/-- Witness for C9 (amended): a fresh start where both connect outcomes are
successes yields a live connection without an escaping error. -/
theorem C9_ensure_connection_witness :
    ∃ st2, ensure_connection ⟨none, 0⟩ ⟨0, none, none, none⟩ = .ok st2 ∧
      st2.connection.isSome = true :=
  C9_ensure_connection ⟨none, 0⟩ ⟨0, none, none, none⟩ rfl rfl (fun _ h => nomatch h)

/-- C1: at most one stored registration per actor at all times.  Every
flow-stage handler (register button, basic-info submit, contact-info submit,
team-selection commit) re-checks `is_user_registered` and refuses an
already-registered eligible actor; the `discord_id UNIQUE` constraint rejects
a duplicate insert leaving the table unchanged; the commit preserves
key-uniqueness of the table; and when two flows for the same actor both pass
their pre-checks on the same table, the first commit stores one record and
the second observes the duplicate-rejection failure outcome with no second
record stored. -/
theorem C1_at_most_one_registration (cfg : BotConfig) (db : List Registration)
    (member : Member) (nom prenom photo annee matricule phone email team : String)
    (data reg1 reg2 : Registration)
    (helig : (check_registration_eligibility cfg member).1 = true) :
    (isRegisteredDb db (toString member.id) = true →
      register_button cfg db member = .refusedAlreadyRegistered ∧
      (registration_on_submit cfg db member nom prenom photo annee matricule).2 =
        .refusedAlreadyRegistered ∧
      (contact_on_submit cfg db member phone email).outcome = .refusedAlreadyRegistered) ∧
    (data.discord_id = toString member.id → isRegisteredDb db data.discord_id = true →
      handle_team_selection cfg db member data team = (db, .refusedAlreadyRegistered)) ∧
    (isRegisteredDb db reg1.discord_id = true → saveRegistrationDb db reg1 = (db, false)) ∧
    ((db.map Registration.discord_id).Nodup →
      ((handle_team_selection cfg db member data team).1.map Registration.discord_id).Nodup) ∧
    (isRegisteredDb db reg1.discord_id = false → reg2.discord_id = reg1.discord_id →
      commitAfterChecks db reg1 = (db ++ [reg1], .committed) ∧
      commitAfterChecks (db ++ [reg1]) reg2 = (db ++ [reg1], .saveFailed)) := by
  refine ⟨?_, ?_, ?_, ?_, ?_⟩
  · intro hreg
    refine ⟨?_, ?_, ?_⟩
    · simp [register_button, helig, hreg]
    · simp [registration_on_submit, helig, hreg]
    · simp [contact_on_submit, helig, hreg]
  · intro hdid hreg
    simp [handle_team_selection, helig, hreg]
  · intro hreg
    simp [saveRegistrationDb, hreg]
  · intro hnodup
    by_cases hreg : isRegisteredDb db data.discord_id = true
    · simp [handle_team_selection, helig, hreg, hnodup]
    · rw [Bool.not_eq_true] at hreg
      have hfree : ∀ r ∈ db, r.discord_id ≠ data.discord_id := by
        intro r hr
        have := (List.any_eq_false.mp hreg) r hr
        simpa using this
      have hsave : isRegisteredDb db ({ data with team := team } : Registration).discord_id
          = false := hreg
      simp only [handle_team_selection, helig, Bool.not_true, Bool.false_eq_true,
        if_false, hreg, commitAfterChecks, saveRegistrationDb, hsave]
      rw [List.map_append]
      rw [List.nodup_append]
      refine ⟨hnodup, List.nodup_singleton _, ?_⟩
      intro x hx
      simp only [List.mem_map] at hx
      obtain ⟨r, hr, hrx⟩ := hx
      simp only [List.mem_singleton, List.map_cons, List.map_nil]
      intro hc
      rw [hc] at hrx
      exact hfree r hr hrx
  · intro hfree hsame
    have hreg2 : isRegisteredDb (db ++ [reg1]) reg2.discord_id = true := by
      simp [isRegisteredDb, hsame]
    exact ⟨by simp [commitAfterChecks, saveRegistrationDb, hfree],
           by simp [commitAfterChecks, saveRegistrationDb, hreg2]⟩

/-- Witness for C1: with an empty table, the first commit for actor "42"
stores its record and a racing second commit for the same actor fails,
leaving exactly the one record. -/
theorem C1_at_most_one_registration_witness :
    commitAfterChecks [] sampleReg = ([sampleReg], FlowOutcome.committed) ∧
    commitAfterChecks [sampleReg] sampleReg2 = ([sampleReg], FlowOutcome.saveFailed) :=
  (C1_at_most_one_registration cfgW [] memberW "" "" "" "" "" "" "" ""
    sampleReg sampleReg sampleReg2 (by decide)).2.2.2.2 (by decide) (by decide)

end OMC
